import Mathlib

/-!
Shallow embedding of `scripts/collect_and_store_tweets.py`.

The script reads Twitter credentials from a JSON file, opens a paginated
tweepy cursor per query, projects each tweet into a flat record, and inserts
it into a MongoDB collection, with log-and-continue handling for write
errors and linear backoff for rate limits.  External collaborators (the
tweepy cursor, the Mongo collection, `randint`) are modelled as oracles:
the cursor as a list of fetch events, the sink as a function from the
insert-attempt index to an outcome, `randint` as a function from the call
index to a value.
-/

set_option autoImplicit false

namespace CollectTweets

/-- The author object carried by a tweet (`tweet.user` in the source):
only the fields the script reads. -/
structure TwitterUser where
  name : String
  followers_count : Nat
  location : String
  deriving DecidableEq, Repr

/-- A fetched tweet, with exactly the fields the script reads
(`text`, `lang`, `created_at`, `user`, `retweet_count`, `favorite_count`). -/
structure Tweet where
  text : String
  lang : String
  created_at : String
  user : TwitterUser
  retweet_count : Nat
  favorite_count : Nat
  deriving DecidableEq, Repr

/-- The flat document built in the loop body (`filtered_tweet` in the
source) and passed to `mongo_collection.insert_one`. -/
structure TweetRecord where
  query : String
  text : String
  language : String
  date : String
  username : String
  user_followers : Nat
  user_location : String
  retweets : Nat
  likes : Nat
  deriving DecidableEq, Repr

/-- The dictionary literal of the loop body: the pure projection of a
fetched tweet (plus the query string) into a `TweetRecord`. -/
def filteredTweet (query : String) (tweet : Tweet) : TweetRecord :=
  { query := query
    text := tweet.text
    language := tweet.lang
    date := tweet.created_at
    username := tweet.user.name
    user_followers := tweet.user.followers_count
    user_location := tweet.user.location
    retweets := tweet.retweet_count
    likes := tweet.favorite_count }

/-- One observable behaviour of a call to `tweets.next()`:
it returns an item, raises `tweepy.TweepError` (rate limit), or raises
some unclassified exception (identified by a numeric code).  Exhaustion
(`StopIteration`) is the end of the event list. -/
inductive FetchEvent where
  | item (tweet : Tweet)
  | rateLimit
  | fetchOther (e : Nat)
  deriving DecidableEq, Repr

/-- One observable behaviour of a call to `mongo_collection.insert_one`:
success, `pymongo.errors.PyMongoError`, or an unclassified exception. -/
inductive WriteOutcome where
  | ok
  | mongoError
  | otherError (e : Nat)
  deriving DecidableEq, Repr

/-- Result of running the `while True` loop: either it breaks out normally
(`StopIteration` reached) or an unclassified exception escapes. In both
cases we record the successful writes (in order) and the backoff sleeps
performed (in order, in seconds). -/
inductive LoopResult where
  | finished (writes : List TweetRecord) (sleeps : List Nat)
  | exception (e : Nat) (writes : List TweetRecord) (sleeps : List Nat)
  deriving DecidableEq, Repr

/-- Prepend one successful write to a loop result's trace. -/
def LoopResult.withWrite (w : TweetRecord) : LoopResult → LoopResult
  | LoopResult.finished ws ss => LoopResult.finished (w :: ws) ss
  | LoopResult.exception e ws ss => LoopResult.exception e (w :: ws) ss

/-- Prepend one backoff sleep to a loop result's trace. -/
def LoopResult.withSleep (s : Nat) : LoopResult → LoopResult
  | LoopResult.finished ws ss => LoopResult.finished ws (s :: ss)
  | LoopResult.exception e ws ss => LoopResult.exception e ws (s :: ss)

/-- The `while True` loop of `collect_and_store_tweets_from_query`.
`k` counts `insert_one` attempts (the sink oracle is a function of it),
`b` is `backoff_counter` (initialised to 1 by the caller).

* empty event list: `StopIteration` → log and `break`;
* `item t`: build `filtered_tweet` and call `insert_one`; a `PyMongoError`
  is logged and the loop continues with the next item; any other exception
  escapes;
* `rateLimit` (`tweepy.TweepError`): `sleep(60 * b)`, then
  `backoff_counter += 1`, then `continue` from the same cursor position;
* any other exception from `next()` escapes. -/
def collectLoop (query : String) (sink : Nat → WriteOutcome) :
    List FetchEvent → Nat → Nat → LoopResult
  | [], _, _ => LoopResult.finished [] []
  | FetchEvent.item t :: rest, k, b =>
    match sink k with
    | WriteOutcome.ok =>
        LoopResult.withWrite (filteredTweet query t) (collectLoop query sink rest (k + 1) b)
    | WriteOutcome.mongoError => collectLoop query sink rest (k + 1) b
    | WriteOutcome.otherError e => LoopResult.exception e [] []
  | FetchEvent.rateLimit :: rest, k, b =>
    LoopResult.withSleep (60 * b) (collectLoop query sink rest k (b + 1))
  | FetchEvent.fetchOther e :: _, _, _ => LoopResult.exception e [] []

/-- The keyword arguments of the `tweepy.Cursor(api.search, ...)` call
together with the bound passed to `.items(...)`. -/
structure CursorRequest where
  q : String
  since_date : String
  until_date : String
  result_type : String
  items : Nat
  deriving DecidableEq, Repr

/-- Default of the `number_of_tweets` parameter of
`collect_and_store_tweets_from_query`. -/
def default_number_of_tweets : Nat := 200

/-- `collect_and_store_tweets_from_query(api, query, since_date, until_date,
mongo_collection, number_of_tweets)`: builds the cursor request
(`q="{} -filter:retweets".format(query)`, `since=since_date`,
`until=until_date`, `result_type="mixed"`, `.items(number_of_tweets)`) and
runs the loop with `backoff_counter = 1`, on the events the cursor oracle
yields for that request.  Returns the request and the loop trace. -/
def collect_and_store_tweets_from_query (query since_date until_date : String)
    (sink : Nat → WriteOutcome) (cursorItems : CursorRequest → List FetchEvent)
    (number_of_tweets : Nat) : CursorRequest × LoopResult :=
  let req : CursorRequest :=
    { q := query ++ " -filter:retweets"
      since_date := since_date
      until_date := until_date
      result_type := "mixed"
      items := number_of_tweets }
  (req, collectLoop query sink (cursorItems req) 0 1)

/-- One observable action of the multi-query driver: an invocation of the
collection loop for a query, or a `sleep(randint(30, 120))` call with the
value the `randint` oracle produced. -/
inductive DriverAction where
  | collectCall (query : String)
  | interSleep (seconds : Nat)
  deriving DecidableEq, Repr

/-- Lower bound of the `randint(30, 120)` call (inclusive). -/
def randint_lo : Nat := 30

/-- Upper bound of the `randint(30, 120)` call (inclusive). -/
def randint_hi : Nat := 120

/-- `download_and_store_tweets_on_mongodb(api, list_of_queries, since_date,
until_date, mongodb_collection)`: for each query in order, run the
collection loop (with the default `number_of_tweets`), then
`sleep(randint(30, 120))`.  `r` is the index of the next `randint` call;
the sink oracle may depend on the query.  If a collection loop escapes
with an unclassified exception, the `for` loop aborts there: no sleep, no
further query, and the exception propagates (second component `some e`). -/
def download_and_store_tweets_on_mongodb (since_date until_date : String)
    (cursorItems : CursorRequest → List FetchEvent)
    (sink : String → Nat → WriteOutcome) (rand : Nat → Nat) :
    List String → Nat → List DriverAction × Option Nat
  | [], _ => ([], none)
  | query :: qs, r =>
    match (collect_and_store_tweets_from_query query since_date until_date
        (sink query) cursorItems default_number_of_tweets).2 with
    | LoopResult.finished _ _ =>
      let rest := download_and_store_tweets_on_mongodb since_date until_date
        cursorItems sink rand qs (r + 1)
      (DriverAction.collectCall query :: DriverAction.interSleep (rand r) :: rest.1, rest.2)
    | LoopResult.exception e _ _ => ([DriverAction.collectCall query], some e)

/-- A parsed JSON value, restricted to the shapes the script reads:
strings and objects. A missing or unparsable credentials file is modelled
as `none` at the call site (`open` / `json.loads` raising). -/
inductive Json where
  | str (s : String)
  | obj (fields : List (String × Json))

/-- Dictionary lookup on the fields of a JSON object (Python `d[key]`,
`none` playing the role of the raised `KeyError`). -/
def lookupField : List (String × Json) → String → Option Json
  | [], _ => none
  | (k, v) :: fs, key => if k = key then some v else lookupField fs key

/-- Subscript access `value[key]`: only objects can be indexed. -/
def Json.get : Json → String → Option Json
  | Json.str _, _ => none
  | Json.obj fields, key => lookupField fields key

/-- Coerce a JSON value to the string the script expects. -/
def Json.asString : Json → Option String
  | Json.str s => some s
  | Json.obj _ => none

/-- `load_twitter_credentials(keys_filename)`: reads the JSON file
(`none` = missing or unparsable, propagated), takes the object under the
top-level `"Twitter"` key, and extracts `consumer_key`, `consumer_secret`,
`access_token`, `access_secret`, returned in that order.  Any missing
field propagates as `none`; there is no local recovery. -/
def load_twitter_credentials (file : Option Json) :
    Option (String × String × String × String) :=
  match file with
  | none => none
  | some api_twitter =>
    match api_twitter.get "Twitter" with
    | none => none
    | some tw =>
      match (tw.get "consumer_key").bind Json.asString,
            (tw.get "consumer_secret").bind Json.asString,
            (tw.get "access_token").bind Json.asString,
            (tw.get "access_secret").bind Json.asString with
      | some consumer_key, some consumer_secret, some access_token, some access_secret =>
        some (consumer_key, consumer_secret, access_token, access_secret)
      | _, _, _, _ => none

/-- The string built by the
`logging.debug("{}-{}-{}-{}".format(consumer_key, consumer_secret,
access_token, access_secret))` call of `load_twitter_credentials`. -/
def credentials_debug_log
    (consumer_key consumer_secret access_token access_secret : String) : String :=
  consumer_key ++ "-" ++ consumer_secret ++ "-" ++ access_token ++ "-" ++ access_secret

/-- The debug-level log output of a `load_twitter_credentials` call
(`none` when the load fails before the logging line). -/
def load_twitter_credentials_debug_output (file : Option Json) : Option String :=
  (load_twitter_credentials file).map fun c =>
    credentials_debug_log c.1 c.2.1 c.2.2.1 c.2.2.2

/-- Database name used by
`download_and_store_tweets_on_default_mongodb_instance`
(`db = client.dm_project`). -/
def default_database_name : String := "dm_project"

/-- Collection name used by
`download_and_store_tweets_on_default_mongodb_instance`
(`tweet_games = db.twitter`). -/
def default_collection_name : String := "twitter"

/-- Database name claimed by that function's own docstring
("db = twitter"). -/
def docstring_database_name : String := "twitter"

/-- Collection name claimed by that function's own docstring
("collection = game_tweets"). -/
def docstring_collection_name : String := "game_tweets"

/-- Where the default-instance entry point writes: host and port from its
parameters, database and collection names hard-coded. -/
structure MongoTarget where
  mongo_ip : String
  mongo_port : Nat
  database : String
  collection : String
  deriving DecidableEq, Repr

/-- `download_and_store_tweets_on_default_mongodb_instance(keys_filename,
list_of_queries, since_date, until_date, mongo_ip, mongo_port)`: loads the
credentials (a failure propagates: `none`), connects to
`MongoClient(mongo_ip, mongo_port)`, picks `client.dm_project` and its
`twitter` collection, and runs the multi-query driver against it. -/
def download_and_store_tweets_on_default_mongodb_instance
    (keys_file : Option Json) (list_of_queries : List String)
    (since_date until_date : String) (mongo_ip : String) (mongo_port : Nat)
    (cursorItems : CursorRequest → List FetchEvent)
    (sink : String → Nat → WriteOutcome) (rand : Nat → Nat) :
    Option (MongoTarget × (List DriverAction × Option Nat)) :=
  (load_twitter_credentials keys_file).map fun _ =>
    ({ mongo_ip := mongo_ip
       mongo_port := mongo_port
       database := "dm_project"
       collection := "twitter" },
     download_and_store_tweets_on_mongodb since_date until_date
       cursorItems sink rand list_of_queries 0)

/-! ### Spec-side helper functions and lemmas -/

/-- One benign cursor behaviour: `some t` is a fetched item, `none` a
rate-limit signal. -/
def benignEvent : Option Tweet → FetchEvent
  | some t => FetchEvent.item t
  | none => FetchEvent.rateLimit

/-- The backoff sleeps a benign event list produces when the counter
starts at `b`: one sleep of `60 * (current counter)` per rate-limit
signal, the counter incremented after each. -/
def rateSleeps (b : Nat) : List (Option Tweet) → List Nat
  | [] => []
  | some _ :: es => rateSleeps b es
  | none :: es => 60 * b :: rateSleeps (b + 1) es

/-- The queries of the collection-loop invocations in a driver trace. -/
def callsOf (actions : List DriverAction) : List String :=
  actions.filterMap fun a =>
    match a with
    | DriverAction.collectCall q => some q
    | DriverAction.interSleep _ => none

/-- The driver trace on queries `qs` when every collection loop finishes:
one invocation per query in order, each followed by one randomized sleep,
the `randint` oracle consumed from index `r` on. -/
def driverTrace (rand : Nat → Nat) : List String → Nat → List DriverAction
  | [], _ => []
  | q :: qs, r =>
    DriverAction.collectCall q :: DriverAction.interSleep (rand r) ::
      driverTrace rand qs (r + 1)

theorem collectLoop_items_ok (query : String) :
    ∀ (ts : List Tweet) (k b : Nat),
      collectLoop query (fun _ => WriteOutcome.ok) (ts.map FetchEvent.item) k b
        = LoopResult.finished (ts.map (filteredTweet query)) [] := by
  intro ts
  induction ts with
  | nil => intro k b; rfl
  | cons t ts ih =>
    intro k b
    simp [collectLoop, ih (k + 1) b, LoopResult.withWrite]

theorem collectLoop_fail_at (query : String) (k0 : Nat) :
    ∀ (ts : List Tweet) (k b : Nat),
      collectLoop query
          (fun n => if n = k0 then WriteOutcome.mongoError else WriteOutcome.ok)
          (ts.map FetchEvent.item) k b
        = LoopResult.finished
            (if k ≤ k0 then ((ts.eraseIdx (k0 - k)).map (filteredTweet query))
             else ts.map (filteredTweet query)) [] := by
  intro ts
  induction ts with
  | nil =>
    intro k b
    simp [collectLoop, List.eraseIdx]
  | cons t ts ih =>
    intro k b
    by_cases hk : k = k0
    · subst hk
      have hgt : ¬ (k + 1 ≤ k) := by omega
      simp [collectLoop, ih (k + 1) b, hgt, List.eraseIdx]
    · by_cases hle : k ≤ k0
      · have hlt : k < k0 := by omega
        have hle1 : k + 1 ≤ k0 := by omega
        have hsub : k0 - k = (k0 - (k + 1)) + 1 := by omega
        simp [collectLoop, hk, ih (k + 1) b, hle1, hle, hsub, List.eraseIdx,
          LoopResult.withWrite]
      · have hgt1 : ¬ (k + 1 ≤ k0) := by omega
        simp [collectLoop, hk, ih (k + 1) b, hgt1, hle, LoopResult.withWrite]

theorem collectLoop_benign (query : String) :
    ∀ (es : List (Option Tweet)) (k b : Nat),
      collectLoop query (fun _ => WriteOutcome.ok) (es.map benignEvent) k b
        = LoopResult.finished
            ((es.filterMap id).map (filteredTweet query)) (rateSleeps b es) := by
  intro es
  induction es with
  | nil => intro k b; rfl
  | cons e es ih =>
    intro k b
    cases e with
    | some t =>
      simp [benignEvent, collectLoop, ih (k + 1) b, rateSleeps,
        LoopResult.withWrite]
    | none =>
      simp [benignEvent, collectLoop, ih k (b + 1), rateSleeps,
        LoopResult.withSleep]

theorem rateSleeps_eq_range :
    ∀ (es : List (Option Tweet)) (b : Nat),
      rateSleeps b es
        = (List.range (es.countP fun o => o.isNone)).map (fun i => 60 * (b + i)) := by
  intro es
  induction es with
  | nil => intro b; rfl
  | cons e es ih =>
    intro b
    cases e with
    | some t => simp [rateSleeps, List.countP_cons, ih b]
    | none =>
      have hcount : ((none :: es).countP fun o : Option Tweet => o.isNone)
          = (es.countP fun o => o.isNone) + 1 := by simp [List.countP_cons]
      rw [rateSleeps, ih (b + 1), hcount, List.range_succ_eq_map, List.map_cons,
        List.map_map]
      simp only [Function.comp, Nat.add_zero]
      congr 1
      refine List.map_congr_left fun a _ => ?_
      simp only [Function.comp_apply]
      omega

theorem collectLoop_items_then_other (query : String) (e : Nat)
    (rest : List FetchEvent) :
    ∀ (ts : List Tweet) (k b : Nat),
      collectLoop query (fun _ => WriteOutcome.ok)
          (ts.map FetchEvent.item ++ FetchEvent.fetchOther e :: rest) k b
        = LoopResult.exception e (ts.map (filteredTweet query)) [] := by
  intro ts
  induction ts with
  | nil => intro k b; rfl
  | cons t ts ih =>
    intro k b
    simp [collectLoop, ih (k + 1) b, LoopResult.withWrite]

theorem download_benign (since_date until_date : String)
    (tss : String → List Tweet) (rand : Nat → Nat) :
    ∀ (qs : List String) (r : Nat),
      download_and_store_tweets_on_mongodb since_date until_date
          (fun req => (tss req.q).map FetchEvent.item)
          (fun _ _ => WriteOutcome.ok) rand qs r
        = (driverTrace rand qs r, none) := by
  intro qs
  induction qs with
  | nil => intro r; rfl
  | cons q qs ih =>
    intro r
    simp [download_and_store_tweets_on_mongodb,
      collect_and_store_tweets_from_query, collectLoop_items_ok, ih (r + 1),
      driverTrace]

theorem callsOf_driverTrace (rand : Nat → Nat) :
    ∀ (qs : List String) (r : Nat), callsOf (driverTrace rand qs r) = qs := by
  intro qs
  induction qs with
  | nil => intro r; rfl
  | cons q qs ih =>
    intro r
    simp [driverTrace, callsOf, List.filterMap]
    have := ih (r + 1)
    simp [callsOf] at this
    exact this

/-! ### The claims -/

/-- C1: for every fetched item whose sink write succeeds, the loop of
`collect_and_store_tweets_from_query` performs exactly one sink write for
that item — with an all-succeeding sink the writes are exactly one record
per item, in order — and the written record is the pure, untransformed
projection {query, text, language, date, username, user_followers,
user_location, retweets, likes} of the source item's fields, with `query`
equal to the query string that produced it. -/
theorem claim_C1 :
    ∀ (query since_date until_date : String) (n : Nat) (ts : List Tweet),
      (collect_and_store_tweets_from_query query since_date until_date
          (fun _ => WriteOutcome.ok) (fun _ => ts.map FetchEvent.item) n).2
        = LoopResult.finished (ts.map (filteredTweet query)) []
      ∧ ∀ t : Tweet,
          filteredTweet query t
            = { query := query
                text := t.text
                language := t.lang
                date := t.created_at
                username := t.user.name
                user_followers := t.user.followers_count
                user_location := t.user.location
                retweets := t.retweet_count
                likes := t.favorite_count } := by
  intro query since_date until_date n ts
  exact ⟨collectLoop_items_ok query ts 0 1, fun t => rfl⟩

/-- C2: on every rate-limit signal the loop sleeps `60 * backoff_counter`
seconds and then increments the counter; the counter starts at 1 at each
call (first sleep 60 s), is incremented once per rate-limit signal within
the call, and any number of signals is tolerated (the sleeps of a run with
`m` signals are `60*1, ..., 60*m`: no retry cap).  A run that hits one
rate-limit signal and then an item resumes at the same cursor position:
the item is written exactly once after a single 60-second sleep. -/
theorem claim_C2 :
    ∀ (query since_date until_date : String) (n : Nat)
      (es : List (Option Tweet)) (t : Tweet),
      (collect_and_store_tweets_from_query query since_date until_date
          (fun _ => WriteOutcome.ok) (fun _ => es.map benignEvent) n).2
        = LoopResult.finished ((es.filterMap id).map (filteredTweet query))
            (rateSleeps 1 es)
      ∧ rateSleeps 1 es
          = (List.range (es.countP fun o => o.isNone)).map (fun i => 60 * (1 + i))
      ∧ (collect_and_store_tweets_from_query query since_date until_date
            (fun _ => WriteOutcome.ok)
            (fun _ => [FetchEvent.rateLimit, FetchEvent.item t]) n).2
          = LoopResult.finished [filteredTweet query t] [60] := by
  intro query since_date until_date n es t
  exact ⟨collectLoop_benign query es 0 1, rateSleeps_eq_range es 1, rfl⟩

/-- C3: a sink write failure (`PyMongoError`) on item `k` is non-fatal and
non-retried: the failed item's record is dropped and every other item is
still written, in order. -/
theorem claim_C3 :
    ∀ (query since_date until_date : String) (n k : Nat) (ts : List Tweet),
      (collect_and_store_tweets_from_query query since_date until_date
          (fun j => if j = k then WriteOutcome.mongoError else WriteOutcome.ok)
          (fun _ => ts.map FetchEvent.item) n).2
        = LoopResult.finished ((ts.eraseIdx k).map (filteredTweet query)) [] := by
  intro query since_date until_date n k ts
  have h := collectLoop_fail_at query k ts 0 1
  simpa using h

/-- C4: `download_and_store_tweets_on_mongodb` invokes the collection loop
exactly once per query, sequentially in list order, and sleeps a
`randint(30, 120)` interval between any two consecutive invocations: on
`["q1", "q2"]` the trace is invocation, sleep, invocation, sleep, and
under the `randint` contract every sampled interval lies in `[30, 120]`. -/
theorem claim_C4 :
    ∀ (since_date until_date : String) (tss : String → List Tweet)
      (rand : Nat → Nat) (q1 q2 : String),
      (∀ m, randint_lo ≤ rand m ∧ rand m ≤ randint_hi) →
      (download_and_store_tweets_on_mongodb since_date until_date
          (fun req => (tss req.q).map FetchEvent.item)
          (fun _ _ => WriteOutcome.ok) rand [q1, q2] 0).1
        = [DriverAction.collectCall q1, DriverAction.interSleep (rand 0),
           DriverAction.collectCall q2, DriverAction.interSleep (rand 1)]
      ∧ (30 ≤ rand 0 ∧ rand 0 ≤ 120) ∧ (30 ≤ rand 1 ∧ rand 1 ≤ 120)
      ∧ ∀ (qs : List String) (r : Nat),
          callsOf (download_and_store_tweets_on_mongodb since_date until_date
              (fun req => (tss req.q).map FetchEvent.item)
              (fun _ _ => WriteOutcome.ok) rand qs r).1 = qs := by
  intro since_date until_date tss rand q1 q2 h
  refine ⟨?_, h 0, h 1, ?_⟩
  · rw [download_benign]; rfl
  · intro qs r
    rw [download_benign]
    exact callsOf_driverTrace rand qs r

theorem claim_C4_witness :
    (download_and_store_tweets_on_mongodb "2019-01-01" "2019-01-31"
        (fun _ => (([] : List Tweet)).map FetchEvent.item)
        (fun _ _ => WriteOutcome.ok) (fun _ => 30) ["q1", "q2"] 0).1
      = [DriverAction.collectCall "q1", DriverAction.interSleep 30,
         DriverAction.collectCall "q2", DriverAction.interSleep 30] :=
  (claim_C4 "2019-01-01" "2019-01-31" (fun _ => []) (fun _ => 30) "q1" "q2"
    (fun _ => ⟨by norm_num [randint_lo], by norm_num [randint_hi]⟩)).1

/-- C5: for every valid credentials file, `load_twitter_credentials`
returns exactly the four strings stored under the top-level `"Twitter"`
object, in the order consumer key, consumer secret, access token, access
secret; a missing/unparsable file or a missing field propagates as a
failure with no local recovery. -/
theorem claim_C5 :
    ∀ ck cs atk asec : String,
      load_twitter_credentials (some (Json.obj [("Twitter",
          Json.obj [("consumer_key", Json.str ck), ("consumer_secret", Json.str cs),
            ("access_token", Json.str atk), ("access_secret", Json.str asec)])]))
        = some (ck, cs, atk, asec)
      ∧ load_twitter_credentials none = none
      ∧ load_twitter_credentials (some (Json.obj [("Twitter",
          Json.obj [("consumer_key", Json.str ck), ("consumer_secret", Json.str cs),
            ("access_token", Json.str atk)])])) = none
      ∧ load_twitter_credentials (some (Json.obj [])) = none := by
  intro ck cs atk asec
  exact ⟨rfl, rfl, rfl, rfl⟩

/-- C6: the paginated sequence is opened with the retweet-exclusion
modifier appended to the query string, the given since/until window,
result ordering mode "mixed", and the given item limit, whose default is
200. -/
theorem claim_C6 :
    ∀ (query since_date until_date : String) (sink : Nat → WriteOutcome)
      (cursorItems : CursorRequest → List FetchEvent) (n : Nat),
      ((collect_and_store_tweets_from_query query since_date until_date sink
          cursorItems n).1).q = query ++ " -filter:retweets"
      ∧ ((collect_and_store_tweets_from_query query since_date until_date sink
          cursorItems n).1).since_date = since_date
      ∧ ((collect_and_store_tweets_from_query query since_date until_date sink
          cursorItems n).1).until_date = until_date
      ∧ ((collect_and_store_tweets_from_query query since_date until_date sink
          cursorItems n).1).result_type = "mixed"
      ∧ ((collect_and_store_tweets_from_query query since_date until_date sink
          cursorItems n).1).items = n
      ∧ default_number_of_tweets = 200 := by
  intro query since_date until_date sink cursorItems n
  exact ⟨rfl, rfl, rfl, rfl, rfl, rfl⟩

/-- C7: only the three classified signals (exhaustion, `PyMongoError`,
`TweepError`) are handled in the loop; an unclassified exception from the
sequence or from the sink escapes `collect_and_store_tweets_from_query`
(keeping the writes made so far) and aborts the multi-query driver: the
trace of a run whose first query raises contains only that query's
invocation — no subsequent query is processed — and the exception
surfaces. -/
theorem claim_C7 :
    ∀ (query since_date until_date : String) (n : Nat) (ts : List Tweet)
      (e : Nat) (rest : List FetchEvent) (t : Tweet) (q2 : String)
      (qs : List String) (sinkQ : String → Nat → WriteOutcome)
      (rand : Nat → Nat) (r : Nat),
      (collect_and_store_tweets_from_query query since_date until_date
          (fun _ => WriteOutcome.ok)
          (fun _ => ts.map FetchEvent.item ++ FetchEvent.fetchOther e :: rest) n).2
        = LoopResult.exception e (ts.map (filteredTweet query)) []
      ∧ (collect_and_store_tweets_from_query query since_date until_date
          (fun _ => WriteOutcome.otherError e) (fun _ => [FetchEvent.item t]) n).2
        = LoopResult.exception e [] []
      ∧ download_and_store_tweets_on_mongodb since_date until_date
          (fun _ => [FetchEvent.fetchOther e]) sinkQ rand (query :: q2 :: qs) r
        = ([DriverAction.collectCall query], some e) := by
  intro query since_date until_date n ts e rest t q2 qs sinkQ rand r
  exact ⟨collectLoop_items_then_other query e rest ts 0 1, rfl, rfl⟩

/-- C8: for every successfully parsed credentials file the loader's
debug-level log line is the dash-separated concatenation of all four
secrets, so each secret occurs verbatim in the log output and the log
output is not independent of the secret values. -/
theorem claim_C8 :
    ∀ ck cs atk asec : String,
      load_twitter_credentials_debug_output (some (Json.obj [("Twitter",
          Json.obj [("consumer_key", Json.str ck), ("consumer_secret", Json.str cs),
            ("access_token", Json.str atk), ("access_secret", Json.str asec)])]))
        = some (credentials_debug_log ck cs atk asec)
      ∧ credentials_debug_log ck cs atk asec
          = ck ++ "-" ++ cs ++ "-" ++ atk ++ "-" ++ asec
      ∧ (∃ l r, credentials_debug_log ck cs atk asec = l ++ ck ++ r)
      ∧ (∃ l r, credentials_debug_log ck cs atk asec = l ++ cs ++ r)
      ∧ (∃ l r, credentials_debug_log ck cs atk asec = l ++ atk ++ r)
      ∧ (∃ l r, credentials_debug_log ck cs atk asec = l ++ asec ++ r)
      ∧ credentials_debug_log "k1" "s" "t" "x"
          ≠ credentials_debug_log "k2" "s" "t" "x" := by
  intro ck cs atk asec
  refine ⟨rfl, rfl, ?_, ?_, ?_, ?_, by decide⟩
  · exact ⟨"", "-" ++ cs ++ "-" ++ atk ++ "-" ++ asec, by
      simp [credentials_debug_log, String.append_assoc]⟩
  · exact ⟨ck ++ "-", "-" ++ atk ++ "-" ++ asec, by
      simp [credentials_debug_log, String.append_assoc]⟩
  · exact ⟨ck ++ "-" ++ cs ++ "-", "-" ++ asec, by
      simp [credentials_debug_log, String.append_assoc]⟩
  · exact ⟨ck ++ "-" ++ cs ++ "-" ++ atk ++ "-", "", by
      simp [credentials_debug_log, String.append_assoc]⟩

/-- C9: `download_and_store_tweets_on_default_mongodb_instance` always
writes into database "dm_project" and collection "twitter" on the given
host and port, for every input — fixed constants, not derivable from any
parameter — and both differ from the names its own docstring states
("db = twitter, collection = game_tweets"). -/
theorem claim_C9 :
    ∀ (qs : List String) (since_date until_date ip : String) (port : Nat)
      (cursorItems : CursorRequest → List FetchEvent)
      (sinkQ : String → Nat → WriteOutcome) (rand : Nat → Nat)
      (ck cs atk asec : String),
      ∃ run,
        download_and_store_tweets_on_default_mongodb_instance
            (some (Json.obj [("Twitter",
              Json.obj [("consumer_key", Json.str ck),
                ("consumer_secret", Json.str cs),
                ("access_token", Json.str atk),
                ("access_secret", Json.str asec)])]))
            qs since_date until_date ip port cursorItems sinkQ rand
          = some ({ mongo_ip := ip
                    mongo_port := port
                    database := default_database_name
                    collection := default_collection_name }, run)
        ∧ default_database_name = "dm_project"
        ∧ default_collection_name = "twitter"
        ∧ default_database_name ≠ docstring_database_name
        ∧ default_collection_name ≠ docstring_collection_name := by
  intro qs since_date until_date ip port cursorItems sinkQ rand ck cs atk asec
  exact ⟨_, rfl, rfl, rfl, by decide, by decide⟩

/-- C10: the driver sleeps its randomized interval after every query's
collection loop, including the last one (each invocation in the trace is
followed by a sleep), and on an empty query list it performs no
invocations and no sleeps. -/
theorem claim_C10 :
    ∀ (since_date until_date : String) (tss : String → List Tweet)
      (rand : Nat → Nat) (r : Nat),
      download_and_store_tweets_on_mongodb since_date until_date
          (fun req => (tss req.q).map FetchEvent.item)
          (fun _ _ => WriteOutcome.ok) rand [] r = ([], none)
      ∧ (∀ q : String,
          (download_and_store_tweets_on_mongodb since_date until_date
              (fun req => (tss req.q).map FetchEvent.item)
              (fun _ _ => WriteOutcome.ok) rand [q] r).1
            = [DriverAction.collectCall q, DriverAction.interSleep (rand r)])
      ∧ ∀ qs : List String,
          (download_and_store_tweets_on_mongodb since_date until_date
              (fun req => (tss req.q).map FetchEvent.item)
              (fun _ _ => WriteOutcome.ok) rand qs r).1
            = driverTrace rand qs r := by
  intro since_date until_date tss rand r
  refine ⟨rfl, fun q => ?_, fun qs => ?_⟩
  · rw [download_benign]; rfl
  · rw [download_benign]

end CollectTweets
